import Mathlib

/-!
Verification of the openai-compatible-server core against its specification.

This file shallowly embeds the relevant Python source:
- app/core/llm/mock_llm.py   (MockLLM backend: complete, complete_stream,
  chat_complete, chat_complete_stream, response builders from base.py)
- app/core/llm/factory.py    (LLMFactory: register, get_instance)
- app/utils/api.py           (create_error_response, create_stream_response)
- app/schemas/completions.py (CompletionRequest.validate_prompt)
- app/schemas/chat_completions.py (ChatCompletionRequest.validate_messages)
- app/api/completions.py and app/api/chat_completions.py (handlers)

Timestamps (`_get_current_timestamp`) are passed in as an explicit `Nat`
parameter; Python dicts become association lists; raised exceptions become
`Except`; async generators become the finite list of values they yield.
-/

set_option autoImplicit false

namespace OAIServer

/-! ### Python `str.split()` (whitespace splitting, empty words dropped)

Used by the mock backend for its word-count "tokenization" and for the
word-by-word streaming loop (`response_text.split()`).
-/

/-- Accumulator-passing scanner behind `pySplit`: `acc` holds the characters
of the word currently being read, in reverse order. -/
def wsplitGo (acc : List Char) : List Char → List String
  | [] => if acc.isEmpty then [] else [String.mk acc.reverse]
  | c :: cs =>
    if c.isWhitespace then
      if acc.isEmpty then wsplitGo [] cs
      else String.mk acc.reverse :: wsplitGo [] cs
    else wsplitGo (c :: acc) cs

/-- Python `s.split()`: split on runs of whitespace, dropping empty pieces. -/
def pySplit (s : String) : List String := wsplitGo [] s.data

/-! ### Response envelopes (app/schemas, base.py builders) -/

/-- The `usage` object: prompt/completion/total token counts. -/
structure Usage where
  prompt_tokens : Nat
  completion_tokens : Nat
  total_tokens : Nat
deriving DecidableEq, Repr

/-- One element of `choices` in a text-completion response or stream chunk. -/
structure CompletionChoice where
  text : String
  index : Nat
  finish_reason : Option String
deriving DecidableEq, Repr

/-- A text-completion response dict.  Streaming chunks from
`MockLLM.complete_stream` have the same shape with `usage := none` on all
chunks except the final one. -/
structure CompletionResponse where
  id : String
  object : String
  created : Nat
  model : String
  choices : List CompletionChoice
  usage : Option Usage
deriving DecidableEq, Repr

/-- A chat message dict (`role` / `content`). -/
structure ChatMessage where
  role : String
  content : String
deriving DecidableEq, Repr

/-- One element of `choices` in a chat-completion response. -/
structure ChatChoice where
  index : Nat
  message : ChatMessage
  finish_reason : Option String
deriving DecidableEq, Repr

/-- A chat-completion response dict. -/
structure ChatCompletionResponse where
  id : String
  object : String
  created : Nat
  model : String
  choices : List ChatChoice
  usage : Option Usage
deriving DecidableEq, Repr

/-- The `delta` object of a chat stream chunk: `role` only on the first
chunk, `content` only on word chunks, both absent on the terminal chunk. -/
structure ChatDelta where
  role : Option String
  content : Option String
deriving DecidableEq, Repr

/-- One element of `choices` in a chat stream chunk. -/
structure ChatChunkChoice where
  index : Nat
  delta : ChatDelta
  finish_reason : Option String
deriving DecidableEq, Repr

/-- A chat stream chunk dict (`object = "chat.completion.chunk"`). -/
structure ChatCompletionChunk where
  id : String
  object : String
  created : Nat
  model : String
  choices : List ChatChunkChoice
  usage : Option Usage
deriving DecidableEq, Repr

/-! ### MockLLM (app/core/llm/mock_llm.py), with base.py builders -/

/-- Python `MockLLM.model_name`. -/
def mockModelName : String := "mock-gpt"

/-- Python `BaseLLM._create_completion_response` (base.py), with the timestamp
passed explicitly. -/
def create_completion_response (t : Nat) (text : String) (model : String)
    (prompt_tokens completion_tokens : Nat) (finish_reason : String) :
    CompletionResponse :=
  { id := "cmpl-" ++ toString t
    object := "text_completion"
    created := t
    model := model
    choices := [{ text := text, index := 0, finish_reason := some finish_reason }]
    usage := some { prompt_tokens := prompt_tokens
                    completion_tokens := completion_tokens
                    total_tokens := prompt_tokens + completion_tokens } }

/-- Python `BaseLLM._create_chat_completion_response` (base.py). -/
def create_chat_completion_response (t : Nat) (content : String) (model : String)
    (prompt_tokens completion_tokens : Nat) (finish_reason : String)
    (role : String) : ChatCompletionResponse :=
  { id := "chatcmpl-" ++ toString t
    object := "chat.completion"
    created := t
    model := model
    choices := [{ index := 0, message := { role := role, content := content }
                  finish_reason := some finish_reason }]
    usage := some { prompt_tokens := prompt_tokens
                    completion_tokens := completion_tokens
                    total_tokens := prompt_tokens + completion_tokens } }

/-- Python `response_text = f"This is a mock response to: {prompt}"`. -/
def mockResponseText (prompt : String) : String :=
  "This is a mock response to: " ++ prompt

/-- Python `MockLLM.complete` (non-streaming text completion). -/
def complete (t : Nat) (prompt : String) : CompletionResponse :=
  let response_text := mockResponseText prompt
  create_completion_response t response_text mockModelName
    (pySplit prompt).length (pySplit response_text).length "stop"

/-- One chunk yielded by `MockLLM.complete_stream`. -/
def mkCompletionChunk (cid : String) (created : Nat) (text : String)
    (finish_reason : Option String) (usage : Option Usage) : CompletionResponse :=
  { id := cid, object := "text_completion", created := created
    model := mockModelName
    choices := [{ text := text, index := 0, finish_reason := finish_reason }]
    usage := usage }

/-- The `for i, word in enumerate(words)` loop of `MockLLM.complete_stream`:
`n` is `len(words)` and `i` the current index; `finish_reason` is `"stop"`
exactly when `i == len(words) - 1`. -/
def completeStreamWordChunks (cid : String) (created : Nat) (n : Nat) :
    Nat → List String → List CompletionResponse
  | _, [] => []
  | i, w :: ws =>
    mkCompletionChunk cid created (w ++ " ")
      (if i = n - 1 then some "stop" else none) none
      :: completeStreamWordChunks cid created n (i + 1) ws

/-- Python `MockLLM.complete_stream`, as the list of chunks the generator yields:
one chunk per word of the mock response, then a final empty-text chunk
carrying the usage summary. -/
def complete_stream (t : Nat) (prompt : String) : List CompletionResponse :=
  let response_text := mockResponseText prompt
  let words := pySplit response_text
  let completion_id := "cmpl-" ++ toString t
  let prompt_tokens := (pySplit prompt).length
  completeStreamWordChunks completion_id t words.length 0 words ++
    [mkCompletionChunk completion_id t "" (some "stop")
      (some { prompt_tokens := prompt_tokens
              completion_tokens := words.length
              total_tokens := prompt_tokens + words.length })]

/-- Python `messages[-1] if messages else {"role": "user", "content": ""}`. -/
def chatLastMessage (messages : List ChatMessage) : ChatMessage :=
  messages.getLast?.getD { role := "user", content := "" }

/-- The mock chat response content: echoes the last message when its role is
`"user"`, otherwise a fixed assistant sentence. -/
def mockChatContent (messages : List ChatMessage) : String :=
  let last_message := chatLastMessage messages
  if last_message.role = "user" then
    "This is a mock chat response to: " ++ last_message.content
  else
    "I\x27m a mock AI assistant. How can I help you today?"

/-- Python `sum(len(msg.get("content", "").split()) for msg in messages)`. -/
def chatPromptTokens (messages : List ChatMessage) : Nat :=
  (messages.map (fun msg => (pySplit msg.content).length)).sum

/-- Python `MockLLM.chat_complete` (non-streaming chat completion). -/
def chat_complete (t : Nat) (messages : List ChatMessage) : ChatCompletionResponse :=
  let response_content := mockChatContent messages
  create_chat_completion_response t response_content mockModelName
    (chatPromptTokens messages) (pySplit response_content).length "stop" "assistant"

/-- One chunk yielded by `MockLLM.chat_complete_stream`. -/
def mkChatChunk (cid : String) (created : Nat) (delta : ChatDelta)
    (finish_reason : Option String) (usage : Option Usage) : ChatCompletionChunk :=
  { id := cid, object := "chat.completion.chunk", created := created
    model := mockModelName
    choices := [{ index := 0, delta := delta, finish_reason := finish_reason }]
    usage := usage }

/-- The word loop of `MockLLM.chat_complete_stream` (same indexing as the
text-completion one, with content deltas). -/
def chatStreamWordChunks (cid : String) (created : Nat) (n : Nat) :
    Nat → List String → List ChatCompletionChunk
  | _, [] => []
  | i, w :: ws =>
    mkChatChunk cid created { role := none, content := some (w ++ " ") }
      (if i = n - 1 then some "stop" else none) none
      :: chatStreamWordChunks cid created n (i + 1) ws

/-- Python `MockLLM.chat_complete_stream`, as the list of yielded chunks: a
role-only chunk, one content chunk per word, then a terminal empty-delta
chunk carrying usage. -/
def chat_complete_stream (t : Nat) (messages : List ChatMessage) :
    List ChatCompletionChunk :=
  let response_content := mockChatContent messages
  let words := pySplit response_content
  let completion_id := "chatcmpl-" ++ toString t
  let prompt_tokens := chatPromptTokens messages
  mkChatChunk completion_id t { role := some "assistant", content := none } none none
    :: (chatStreamWordChunks completion_id t words.length 0 words ++
      [mkChatChunk completion_id t { role := none, content := none } (some "stop")
        (some { prompt_tokens := prompt_tokens
                completion_tokens := words.length
                total_tokens := prompt_tokens + words.length })])

/-! ### LLMFactory (app/core/llm/factory.py)

Python class-level dicts become an explicit `FactoryState` record threaded
through the operations.  Backend classes are identified by a `Nat` tag, and
each constructed backend instance is identified by the value of a
construction counter (`next_instance`), so instance identity is observable:
two calls return "the same instance" exactly when they return equal tokens. -/

/-- Python `dict[k] = v` on an insertion-ordered association list. -/
def dictInsert {α : Type} (k : String) (v : α) :
    List (String × α) → List (String × α)
  | [] => [(k, v)]
  | (k2, v2) :: rest =>
    if k2 = k then (k, v) :: rest else (k2, v2) :: dictInsert k v rest

/-- Python `dict.get(k)` on an association list. -/
def dictLookup {α : Type} (k : String) : List (String × α) → Option α
  | [] => none
  | (k2, v2) :: rest => if k2 = k then some v2 else dictLookup k rest

/-- The class-level state of `LLMFactory`: `_llm_classes`, `_instances`,
`_default_model`, plus the instance-construction counter used to name
freshly built instances. -/
structure FactoryState where
  llm_classes : List (String × Nat)
  instances : List (String × Nat)
  default_model : Option String
  next_instance : Nat
deriving DecidableEq, Repr

/-- The factory state before any registration. -/
def emptyFactory : FactoryState :=
  { llm_classes := [], instances := [], default_model := none, next_instance := 0 }

/-- Python `LLMFactory.register`. -/
def register (s : FactoryState) (model_name : String) (llm_class : Nat)
    (is_default : Bool) : FactoryState :=
  let s1 := { s with llm_classes := dictInsert model_name llm_class s.llm_classes }
  if is_default || s1.default_model.isNone then
    { s1 with default_model := some model_name }
  else s1

/-- The body of `LLMFactory.get_instance` after the default has been
substituted: cache hit, or construct-and-cache, or `ValueError`. -/
def get_instance_named (s : FactoryState) (model_name : String) :
    Except String (Nat × FactoryState) :=
  match dictLookup model_name s.instances with
  | some inst => Except.ok (inst, s)
  | none =>
    match dictLookup model_name s.llm_classes with
    | none => Except.error ("Model \x27" ++ model_name ++ "\x27 not found")
    | some _llm_class =>
      Except.ok (s.next_instance,
        { s with instances := dictInsert model_name s.next_instance s.instances
                 next_instance := s.next_instance + 1 })

/-- Python `LLMFactory.get_instance` (raised `ValueError`s become `Except.error`). -/
def get_instance (s : FactoryState) (model_name : Option String) :
    Except String (Nat × FactoryState) :=
  match model_name with
  | none =>
    match s.default_model with
    | none => Except.error "No default model registered"
    | some d => get_instance_named s d
  | some n => get_instance_named s n

/-! ### Error envelopes and the stream framer (app/utils/api.py) -/

/-- The `error` object of the error envelope. -/
structure ErrorBody where
  message : String
  etype : String
  param : Option String
  code : Option String
deriving DecidableEq, Repr

/-- An error response: HTTP status code plus `{"error": {...}}` body. -/
structure ErrorResponse where
  status_code : Nat
  error : ErrorBody
deriving DecidableEq, Repr

/-- Python truthiness of an optional string (`if param:`): `None` and the
empty string are falsy. -/
def truthyStr : Option String → Option String
  | some "" => none
  | o => o

/-- Python `create_error_response` (app/utils/api.py): `param` and `code` are
included only when truthy. -/
def create_error_response (message : String) (etype : String)
    (status_code : Nat) (param : Option String) (code : Option String) :
    ErrorResponse :=
  { status_code := status_code
    error := { message := message, etype := etype
               param := truthyStr param, code := truthyStr code } }

/-- Python `json.dumps` of a JSON string value (escaping is not modelled). -/
def jsonString (s : String) : String := "\"" ++ s ++ "\""

/-- Python `json.dumps(error_data)` for the mid-stream error event of
`create_stream_response`. -/
def errorJson (message : String) : String :=
  "\x7b\"error\": \x7b\"message\": " ++ jsonString message ++
    ", \"type\": \"server_error\"\x7d\x7d"

/-- One `data: ...\n\n` wire frame. -/
def dataFrame (payload : String) : String := "data: " ++ payload ++ "\n\n"

/-- The terminal sentinel frame. -/
def doneFrame : String := "data: [DONE]\n\n"

/-- The inner `stream_generator` of `create_stream_response`, as the list of
frames it yields.  The wrapped generator is modelled by the list `chunks` of
values it yields before finishing, together with `failure`: `none` when it
is exhausted normally, `some msg` when it then raises an exception whose
`str` is `msg` (the `except` branch). -/
def create_stream_response {α : Type} (serialize : α → String)
    (chunks : List α) (failure : Option String) : List String :=
  chunks.map (fun c => dataFrame (serialize c)) ++
    match failure with
    | none => [doneFrame]
    | some msg => [dataFrame (errorJson msg), doneFrame]

/-! ### Request schemas (app/schemas) -/

/-- Python `ChatCompletionRequest.validate_messages`: reject an empty list. -/
def validate_messages (v : List ChatMessage) :
    Except String (List ChatMessage) :=
  if v.isEmpty then Except.error "messages不能为空" else Except.ok v

/-- An element of a prompt given as a Python list: a string, an int, or an
inner list of ints (`Union[str, List[str], List[int], List[List[int]]]`). -/
inductive PyItem : Type where
  | str (s : String)
  | int (n : Int)
  | ints (l : List Int)
deriving DecidableEq, Repr

/-- Python `isinstance(x, str)`. -/
def PyItem.isStr : PyItem → Bool
  | .str _ => true
  | _ => false

/-- Python `isinstance(x, int)`. -/
def PyItem.isInt : PyItem → Bool
  | .int _ => true
  | _ => false

/-- Python `isinstance(x, list)`. -/
def PyItem.isList : PyItem → Bool
  | .ints _ => true
  | _ => false

/-- A prompt value: a plain string or a Python list of items. -/
inductive PyPrompt : Type where
  | str (s : String)
  | list (items : List PyItem)
deriving DecidableEq, Repr

/-- Python `CompletionRequest.validate_prompt`: an empty list becomes `""`;
homogeneous lists pass through; mixed lists raise `ValueError`. -/
def validate_prompt (v : PyPrompt) : Except String PyPrompt :=
  match v with
  | .str s => Except.ok (.str s)
  | .list items =>
    if items.isEmpty then Except.ok (.str "")
    else if items.all PyItem.isInt then Except.ok (.list items)
    else if items.all PyItem.isList then Except.ok (.list items)
    else if items.all PyItem.isStr then Except.ok (.list items)
    else Except.error "prompt列表元素类型必须一致"

/-! ### Request handlers (app/api/completions.py, app/api/chat_completions.py) -/

/-- Python `prompt[0] if prompt else ""`, on a list already known to contain only
strings. -/
def pyFirstString (items : List PyItem) : String :=
  match items with
  | PyItem.str s :: _ => s
  | _ => ""

/-- The prompt-normalization block of `create_completion` (lines 44-55):
a string passes through; an all-string list is replaced by its first
element (or `""`); any other list yields the token-list error response. -/
def normalize_prompt (prompt : PyPrompt) : Except ErrorResponse String :=
  match prompt with
  | .str s => Except.ok s
  | .list items =>
    if items.all PyItem.isStr then Except.ok (pyFirstString items)
    else Except.error (create_error_response
      "Token lists as prompts are not supported" "invalid_request_error"
      400 (some "prompt") none)

/-- A failure crossing the handler's `try` block: Python distinguishes
`ValueError` from every other exception class. -/
inductive PyFailure : Type where
  | valueError (msg : String)
  | otherError (msg : String)
deriving DecidableEq, Repr

/-- What a handler returns to the transport layer: a successful response
body or an error envelope — never a raw exception. -/
inductive HandlerOutcome (α : Type) : Type where
  | success (response : α)
  | errorResponse (e : ErrorResponse)
deriving DecidableEq, Repr

/-- The `try/except` translation of `create_completion` (completions.py):
`ValueError` becomes a 400 `invalid_request_error`, anything else becomes a
500 `server_error`. -/
def run_create_completion (α : Type) (body : Except PyFailure α) :
    HandlerOutcome α :=
  match body with
  | .ok r => .success r
  | .error (.valueError m) =>
    .errorResponse (create_error_response m "invalid_request_error" 400 none none)
  | .error (.otherError m) =>
    .errorResponse (create_error_response ("Completion request failed: " ++ m)
      "server_error" 500 none none)

/-- The `try/except` translation of `create_chat_completion`
(chat_completions.py). -/
def run_create_chat_completion (α : Type) (body : Except PyFailure α) :
    HandlerOutcome α :=
  match body with
  | .ok r => .success r
  | .error (.valueError m) =>
    .errorResponse (create_error_response m "invalid_request_error" 400 none none)
  | .error (.otherError m) =>
    .errorResponse (create_error_response ("Chat completion request failed: " ++ m)
      "server_error" 500 none none)

/-- The non-streaming path of the `create_completion` handler: resolve the
backend (a `ValueError` there is caught as `invalid_request_error`/400),
normalize the prompt, then call `MockLLM.complete`. -/
def create_completion (s : FactoryState) (model : String) (prompt : PyPrompt)
    (t : Nat) : HandlerOutcome CompletionResponse × FactoryState :=
  match get_instance s (some model) with
  | .error m =>
    (.errorResponse (create_error_response m "invalid_request_error" 400 none none), s)
  | .ok (_inst, s1) =>
    match normalize_prompt prompt with
    | .error e => (.errorResponse e, s1)
    | .ok p => (.success (complete t p), s1)

/-- The non-streaming chat endpoint as seen by a client: schema validation
of `messages` (pydantic, runs before the handler) followed by
`MockLLM.chat_complete`. -/
def chat_completions_request (t : Nat) (messages : List ChatMessage) :
    Except String ChatCompletionResponse :=
  match validate_messages messages with
  | .error e => Except.error e
  | .ok ms => Except.ok (chat_complete t ms)

/-! ### Observers used to state the claims -/

/-- Concatenation of a list of strings (in order). -/
def concatStrings : List String → String
  | [] => ""
  | s :: rest => s ++ concatStrings rest

/-- The text fragments carried by one text-completion stream chunk
(each chunk has a single choice). -/
def chunkText (c : CompletionResponse) : String :=
  concatStrings (c.choices.map (fun ch => ch.text))

/-- Concatenation, in emission order, of the text deltas of a stream. -/
def concatDeltas (chunks : List CompletionResponse) : String :=
  concatStrings (chunks.map chunkText)

/-- The finish reason carried by a text-completion chunk (of its first
choice; chunks have exactly one). -/
def chunkFinish (c : CompletionResponse) : Option String :=
  match c.choices with
  | ch :: _ => ch.finish_reason
  | [] => none

/-- The content fragments carried by one chat stream chunk. -/
def chatChunkText (c : ChatCompletionChunk) : String :=
  concatStrings (c.choices.map (fun ch => ch.delta.content.getD ""))

/-- Concatenation, in emission order, of the content deltas of a chat
stream. -/
def concatChatDeltas (chunks : List ChatCompletionChunk) : String :=
  concatStrings (chunks.map chatChunkText)

/-- The finish reason carried by a chat stream chunk. -/
def chatChunkFinish (c : ChatCompletionChunk) : Option String :=
  match c.choices with
  | ch :: _ => ch.finish_reason
  | [] => none

/-- The `choices[0].text` of a non-streaming text-completion response. -/
def firstChoiceText (r : CompletionResponse) : String :=
  match r.choices with
  | ch :: _ => ch.text
  | [] => ""

/-- The `choices[0].message.content` of a non-streaming chat response. -/
def firstChatContent (r : ChatCompletionResponse) : String :=
  match r.choices with
  | ch :: _ => ch.message.content
  | [] => ""

/-- Whether a validated prompt value is the empty Python list. -/
def promptIsEmptyList : PyPrompt → Bool
  | .list [] => true
  | _ => false

/-- Whether a wire frame is an error event (its payload is a JSON object
whose first key is `"error"`). -/
def isErrorFrame (f : String) : Bool :=
  ("data: \x7b\"error\":").data.isPrefixOf f.data

/-! ### Supporting lemmas -/

lemma concatStrings_append (l1 l2 : List String) :
    concatStrings (l1 ++ l2) = concatStrings l1 ++ concatStrings l2 := by
  induction l1 with
  | nil => simp [concatStrings, String.empty_append]
  | cons s rest ih => simp [concatStrings, ih, String.append_assoc]

lemma wsplitGo_ne_nil (cs : List Char) :
    ∀ acc, acc ≠ [] → wsplitGo acc cs ≠ [] := by
  induction cs with
  | nil =>
    intro acc h
    simp [wsplitGo, List.isEmpty_iff, h]
  | cons c cs ih =>
    intro acc h
    by_cases hw : c.isWhitespace
    · simp only [wsplitGo, hw, if_true, List.isEmpty_iff, h, if_false]
      exact List.cons_ne_nil _ _
    · simp only [wsplitGo, hw, if_false]
      exact ih (c :: acc) (List.cons_ne_nil _ _)

lemma wsplitGo_ne_nil_of_mem (cs : List Char) :
    ∀ acc, (∃ c ∈ cs, c.isWhitespace = false) → wsplitGo acc cs ≠ [] := by
  induction cs with
  | nil =>
    intro acc h
    obtain ⟨c, hc, _⟩ := h
    exact absurd hc (List.not_mem_nil c)
  | cons c cs ih =>
    intro acc h
    by_cases hw : c.isWhitespace
    · have hcs : ∃ c2 ∈ cs, c2.isWhitespace = false := by
        obtain ⟨c2, hc2, hwc2⟩ := h
        rcases List.mem_cons.mp hc2 with rfl | hmem
        · exact absurd hw (by simp [hwc2])
        · exact ⟨c2, hmem, hwc2⟩
      by_cases hacc : acc.isEmpty
      · simp only [wsplitGo, hw, if_true, hacc, if_true]
        exact ih [] hcs
      · simp only [wsplitGo, hw, if_true, hacc, if_false]
        exact List.cons_ne_nil _ _
    · simp only [wsplitGo, hw, if_false]
      exact wsplitGo_ne_nil cs (c :: acc) (List.cons_ne_nil _ _)

lemma pySplit_mockResponseText_ne_nil (p : String) :
    pySplit (mockResponseText p) ≠ [] := by
  apply wsplitGo_ne_nil_of_mem
  refine ⟨'T', ?_, by decide⟩
  rw [mockResponseText, String.data_append]
  exact List.mem_append_left _ (by decide)

lemma pySplit_mockChatContent_ne_nil (ms : List ChatMessage) :
    pySplit (mockChatContent ms) ≠ [] := by
  rw [mockChatContent]
  split
  · apply wsplitGo_ne_nil_of_mem
    refine ⟨'T', ?_, by decide⟩
    rw [String.data_append]
    exact List.mem_append_left _ (by decide)
  · apply wsplitGo_ne_nil_of_mem
    exact ⟨'I', by decide, by decide⟩

lemma completeStreamWordChunks_map_text (cid : String) (tc n : Nat) :
    ∀ i ws, (completeStreamWordChunks cid tc n i ws).map chunkText =
      ws.map (fun w => w ++ " ") := by
  intro i ws
  induction ws generalizing i with
  | nil => simp [completeStreamWordChunks]
  | cons w ws ih =>
    simp [completeStreamWordChunks, chunkText, mkCompletionChunk, concatStrings,
      String.append_empty, ih]

lemma chatStreamWordChunks_map_text (cid : String) (tc n : Nat) :
    ∀ i ws, (chatStreamWordChunks cid tc n i ws).map chatChunkText =
      ws.map (fun w => w ++ " ") := by
  intro i ws
  induction ws generalizing i with
  | nil => simp [chatStreamWordChunks]
  | cons w ws ih =>
    simp [chatStreamWordChunks, chatChunkText, mkChatChunk, concatStrings,
      String.append_empty, ih]

lemma completeStreamWordChunks_decomp (cid : String) (tc : Nat)
    (front : List String) (lastw : String) :
    ∀ i n, i + front.length + 1 = n →
      completeStreamWordChunks cid tc n i (front ++ [lastw]) =
        front.map (fun w => mkCompletionChunk cid tc (w ++ " ") none none) ++
          [mkCompletionChunk cid tc (lastw ++ " ") (some "stop") none] := by
  induction front with
  | nil =>
    intro i n h
    simp only [List.length_nil] at h
    have hi : i = n - 1 := by omega
    simp [completeStreamWordChunks, hi]
  | cons w ws ih =>
    intro i n h
    have hi : ¬ i = n - 1 := by
      simp only [List.length_cons] at h
      omega
    simp only [List.cons_append, completeStreamWordChunks, hi, if_false,
      List.map_cons, List.append_eq]
    rw [ih (i + 1) n (by simp only [List.length_cons] at h; omega)]

lemma chatStreamWordChunks_decomp (cid : String) (tc : Nat)
    (front : List String) (lastw : String) :
    ∀ i n, i + front.length + 1 = n →
      chatStreamWordChunks cid tc n i (front ++ [lastw]) =
        front.map (fun w =>
            mkChatChunk cid tc { role := none, content := some (w ++ " ") } none none) ++
          [mkChatChunk cid tc { role := none, content := some (lastw ++ " ") }
            (some "stop") none] := by
  induction front with
  | nil =>
    intro i n h
    simp only [List.length_nil] at h
    have hi : i = n - 1 := by omega
    simp [chatStreamWordChunks, hi]
  | cons w ws ih =>
    intro i n h
    have hi : ¬ i = n - 1 := by
      simp only [List.length_cons] at h
      omega
    simp only [List.cons_append, chatStreamWordChunks, hi, if_false, List.map_cons,
      List.append_eq]
    rw [ih (i + 1) n (by simp only [List.length_cons] at h; omega)]

lemma complete_stream_eq (t : Nat) (p : String) (front : List String) (lw : String)
    (hfl : pySplit (mockResponseText p) = front ++ [lw]) :
    complete_stream t p =
      front.map (fun w =>
          mkCompletionChunk ("cmpl-" ++ toString t) t (w ++ " ") none none) ++
        [mkCompletionChunk ("cmpl-" ++ toString t) t (lw ++ " ") (some "stop") none,
         mkCompletionChunk ("cmpl-" ++ toString t) t "" (some "stop")
           (some { prompt_tokens := (pySplit p).length
                   completion_tokens := (pySplit (mockResponseText p)).length
                   total_tokens :=
                     (pySplit p).length + (pySplit (mockResponseText p)).length })] := by
  simp only [complete_stream]
  rw [hfl, completeStreamWordChunks_decomp _ _ front lw 0 (front ++ [lw]).length
    (by simp)]
  simp [List.append_assoc]

lemma chat_complete_stream_eq (t : Nat) (ms : List ChatMessage)
    (front : List String) (lw : String)
    (hfl : pySplit (mockChatContent ms) = front ++ [lw]) :
    chat_complete_stream t ms =
      (mkChatChunk ("chatcmpl-" ++ toString t) t
          { role := some "assistant", content := none } none none
        :: front.map (fun w =>
            mkChatChunk ("chatcmpl-" ++ toString t) t
              { role := none, content := some (w ++ " ") } none none)) ++
        [mkChatChunk ("chatcmpl-" ++ toString t) t
           { role := none, content := some (lw ++ " ") } (some "stop") none,
         mkChatChunk ("chatcmpl-" ++ toString t) t
           { role := none, content := none } (some "stop")
           (some { prompt_tokens := chatPromptTokens ms
                   completion_tokens := (pySplit (mockChatContent ms)).length
                   total_tokens :=
                     chatPromptTokens ms + (pySplit (mockChatContent ms)).length })] := by
  simp only [chat_complete_stream]
  rw [hfl, chatStreamWordChunks_decomp _ _ front lw 0 (front ++ [lw]).length
    (by simp)]
  simp [List.append_assoc]

/-! ### Claims -/

/-- Claim C1, counterexample: for the prompt `"Hello"`, concatenating the
text deltas of all chunks yielded by `complete_stream` does not equal the
`choices[0].text` of the non-streaming `complete` result — the stream emits
each word with a trailing space, so the concatenation carries one extra
trailing space. -/
theorem stream_concat_counterexample :
    concatDeltas (complete_stream 0 "Hello") ≠
      firstChoiceText (complete 0 "Hello") := by decide

/-- Claim C1, amended: concatenating the delta fragments of all chunks of
`complete_stream` (resp. `chat_complete_stream`) in emission order yields
the whitespace-split words of the non-streaming `complete` (resp.
`chat_complete`) text, each rejoined with a single trailing space — i.e.
the non-streaming text with whitespace runs normalized and one trailing
space appended, rather than the non-streaming text verbatim. -/
theorem stream_concat_rejoins_words (t : Nat) (p : String) (ms : List ChatMessage) :
    concatDeltas (complete_stream t p) =
      concatStrings ((pySplit (firstChoiceText (complete t p))).map
        (fun w => w ++ " ")) ∧
    concatChatDeltas (chat_complete_stream t ms) =
      concatStrings ((pySplit (firstChatContent (chat_complete t ms))).map
        (fun w => w ++ " ")) := by
  constructor
  · have h1 : pySplit (firstChoiceText (complete t p)) =
        pySplit (mockResponseText p) := rfl
    rw [h1]
    simp only [concatDeltas, complete_stream]
    rw [List.map_append, concatStrings_append, completeStreamWordChunks_map_text]
    simp [chunkText, mkCompletionChunk, concatStrings, String.append_empty]
  · have h2 : pySplit (firstChatContent (chat_complete t ms)) =
        pySplit (mockChatContent ms) := rfl
    rw [h2]
    simp only [concatChatDeltas, chat_complete_stream, List.map_cons, concatStrings]
    rw [List.map_append, concatStrings_append, chatStreamWordChunks_map_text]
    simp [chatChunkText, mkChatChunk, concatStrings, String.append_empty,
      String.empty_append]

/-- Claim C2, counterexample: in the stream produced by `complete_stream`
for the prompt `"Hello"`, some chunk other than the last carries a non-null
finish reason (the last word chunk is marked `"stop"` and is then followed
by the terminal usage chunk, also marked `"stop"`). -/
theorem stream_finish_counterexample :
    ((complete_stream 0 "Hello").dropLast.all
      (fun c => (chunkFinish c).isNone)) = false := by decide

/-- Claim C2, amended: every chunk of `complete_stream` (resp.
`chat_complete_stream`) carries a null finish reason except the last TWO:
the final word chunk and the terminal chunk both carry `"stop"`, so the
stream does yield one more chunk after its first `"stop"`-marked chunk.
Usage is carried by the last chunk only. -/
theorem stream_terminal_structure (t : Nat) (p : String) (ms : List ChatMessage) :
    (∃ front c1 c2, complete_stream t p = front ++ [c1, c2] ∧
      (∀ c ∈ front, chunkFinish c = none ∧ c.usage = none) ∧
      chunkFinish c1 = some "stop" ∧ c1.usage = none ∧
      chunkFinish c2 = some "stop" ∧ c2.usage.isSome = true) ∧
    (∃ front c1 c2, chat_complete_stream t ms = front ++ [c1, c2] ∧
      (∀ c ∈ front, chatChunkFinish c = none ∧ c.usage = none) ∧
      chatChunkFinish c1 = some "stop" ∧ c1.usage = none ∧
      chatChunkFinish c2 = some "stop" ∧ c2.usage.isSome = true) := by
  constructor
  · have hw : pySplit (mockResponseText p) ≠ [] := pySplit_mockResponseText_ne_nil p
    obtain ⟨front, lw, hfl⟩ : ∃ front lw, pySplit (mockResponseText p) = front ++ [lw] :=
      ⟨_, _, (List.dropLast_append_getLast hw).symm⟩
    refine ⟨front.map (fun w =>
        mkCompletionChunk ("cmpl-" ++ toString t) t (w ++ " ") none none),
      _, _, complete_stream_eq t p front lw hfl, ?_, rfl, rfl, rfl, rfl⟩
    intro c hc
    obtain ⟨w, _, rfl⟩ := List.mem_map.mp hc
    exact ⟨rfl, rfl⟩
  · have hw : pySplit (mockChatContent ms) ≠ [] := pySplit_mockChatContent_ne_nil ms
    obtain ⟨front, lw, hfl⟩ : ∃ front lw, pySplit (mockChatContent ms) = front ++ [lw] :=
      ⟨_, _, (List.dropLast_append_getLast hw).symm⟩
    refine ⟨mkChatChunk ("chatcmpl-" ++ toString t) t
        { role := some "assistant", content := none } none none
        :: front.map (fun w => mkChatChunk ("chatcmpl-" ++ toString t) t
          { role := none, content := some (w ++ " ") } none none),
      _, _, chat_complete_stream_eq t ms front lw hfl, ?_, rfl, rfl, rfl, rfl⟩
    intro c hc
    rcases List.mem_cons.mp hc with rfl | hmem
    · exact ⟨rfl, rfl⟩
    · obtain ⟨w, _, rfl⟩ := List.mem_map.mp hmem
      exact ⟨rfl, rfl⟩

/-- Claim C3, counterexample: a chat-completion request with an empty
`messages` list does not produce a normal chat completion result — the
schema validator `validate_messages` rejects it, so the request fails
before reaching the backend. -/
theorem empty_messages_rejected :
    chat_completions_request 0 [] = Except.error "messages不能为空" := rfl

/-- Claim C3, amended: the backend operation `chat_complete`, called
directly with an empty message list, does treat it as a single user turn
with empty content and returns a normal result; but the endpoint never
exercises this path, because `ChatCompletionRequest.validate_messages`
rejects an empty `messages` list with a `ValueError` at schema-validation
time. -/
theorem empty_messages_backend_vs_schema (t : Nat) :
    chat_complete t [] = chat_complete t [{ role := "user", content := "" }] ∧
    firstChatContent (chat_complete t []) = "This is a mock chat response to: " ∧
    validate_messages [] = Except.error "messages不能为空" :=
  ⟨rfl, rfl, rfl⟩

lemma dictLookup_dictInsert_self {α : Type} (k : String) (v : α) :
    ∀ l, dictLookup k (dictInsert k v l) = some v := by
  intro l
  induction l with
  | nil => simp [dictInsert, dictLookup]
  | cons p rest ih =>
    obtain ⟨k2, v2⟩ := p
    by_cases hk : k2 = k
    · simp [dictInsert, dictLookup, hk]
    · simp [dictInsert, dictLookup, hk, ih]

/-- Claim C4: resolving an already-resolved model name returns the cached
instance and leaves the factory state unchanged (so the constructor runs at
most once per name), and `register` never touches the instance cache (no
invalidation or rebuild path). -/
theorem get_instance_singleton :
    (∀ s n inst s2, get_instance s (some n) = Except.ok (inst, s2) →
        get_instance s2 (some n) = Except.ok (inst, s2)) ∧
    (∀ s n c b, (register s n c b).instances = s.instances) := by
  constructor
  · intro s n inst s2 h
    simp only [get_instance] at h ⊢
    cases hI : dictLookup n s.instances with
    | some i =>
      simp only [get_instance_named, hI] at h
      injection h with h2
      injection h2 with ha hb
      subst ha hb
      simp [get_instance_named, hI]
    | none =>
      cases hC : dictLookup n s.llm_classes with
      | none =>
        rw [get_instance_named, hI, hC] at h
        exact Except.noConfusion h
      | some cls =>
        simp only [get_instance_named, hI, hC] at h
        injection h with h2
        injection h2 with ha hb
        subst ha hb
        simp [get_instance_named, dictLookup_dictInsert_self]
  · intro s n c b
    simp only [register]
    split <;> rfl

/-- Witness for C4: after registering `mock-gpt` in the empty factory and
resolving it once (constructing instance `0`), resolving again returns the
same instance `0` with the state unchanged. -/
theorem get_instance_singleton_witness :
    get_instance
        (FactoryState.mk [("mock-gpt", 0)] [("mock-gpt", 0)] (some "mock-gpt") 1)
        (some "mock-gpt") =
      Except.ok (0,
        FactoryState.mk [("mock-gpt", 0)] [("mock-gpt", 0)] (some "mock-gpt") 1) :=
  get_instance_singleton.1
    (FactoryState.mk [("mock-gpt", 0)] [] (some "mock-gpt") 0) "mock-gpt" 0 _ rfl

/-- Claim C6: after any registration the factory has a default model `d`
and `get_instance none` behaves exactly like `get_instance (some d)`;
whenever a default is recorded the two calls agree; and with no default
recorded (as in the never-registered initial state) `get_instance none`
fails with the not-found-style `ValueError`. -/
theorem default_model_resolution :
    (∀ s n c b, ∃ d, (register s n c b).default_model = some d ∧
        get_instance (register s n c b) none =
          get_instance (register s n c b) (some d)) ∧
    (∀ s d, s.default_model = some d →
        get_instance s none = get_instance s (some d)) ∧
    (∀ s, s.default_model = none →
        get_instance s none = Except.error "No default model registered") := by
  have hkey : ∀ s d, s.default_model = some d →
      get_instance s none = get_instance s (some d) := by
    intro s d h
    simp [get_instance, h]
  refine ⟨?_, hkey, ?_⟩
  · intro s n c b
    rcases hdef : (register s n c b).default_model with _ | d
    · exfalso
      simp only [register] at hdef
      split at hdef
      · simp at hdef
      · rename_i hcond
        simp only at hdef
        simp [hdef] at hcond
    · exact ⟨d, rfl, hkey _ d hdef⟩
  · intro s h
    simp [get_instance, h]

/-- Witness for C6: in the initial factory state (no registration ever),
`get_instance none` fails with the no-default error. -/
theorem default_model_resolution_witness :
    get_instance emptyFactory none = Except.error "No default model registered" :=
  default_model_resolution.2.2 emptyFactory rfl

lemma isErrorFrame_errorFrame (m : String) :
    isErrorFrame (dataFrame (errorJson m)) = true := by
  rw [isErrorFrame, List.isPrefixOf_iff_prefix]
  have hstep : (("data: " ++ "\x7b\"error\": \x7b\"message\": \"").data) <+:
      (dataFrame (errorJson m)).data :=
    ⟨m.data ++ ("\", \"type\": \"server_error\"\x7d\x7d" ++ "\n\n").data, by
      simp [dataFrame, errorJson, jsonString, String.data_append,
        List.append_assoc]⟩
  exact List.IsPrefix.trans (by decide) hstep

lemma errorFrame_ne_doneFrame (m : String) :
    dataFrame (errorJson m) ≠ doneFrame := by
  intro h
  have h2 := congrArg isErrorFrame h
  rw [isErrorFrame_errorFrame] at h2
  exact absurd h2.symm (by decide)

/-- Claim C5: for any wrapped generator run (any serialized chunk sequence,
ending either normally or in a raised failure), the frame list produced by
`create_stream_response` ends with the `data: [DONE]` sentinel, contains it
exactly once, contains exactly one error event when the generator raised
and none otherwise, and on failure consists of the successfully emitted
data frames followed by the error event and then the sentinel — so the
error event always precedes `[DONE]` (the hypotheses say no data chunk
serializes to the sentinel or to an error-shaped payload, as is the case
for the JSON objects the backends emit). -/
theorem stream_framer_contract (α : Type) (serialize : α → String)
    (chunks : List α) (failure : Option String)
    (h1 : ∀ c ∈ chunks, dataFrame (serialize c) ≠ doneFrame)
    (h2 : ∀ c ∈ chunks, isErrorFrame (dataFrame (serialize c)) = false) :
    (create_stream_response serialize chunks failure).getLast? = some doneFrame ∧
    (create_stream_response serialize chunks failure).count doneFrame = 1 ∧
    (create_stream_response serialize chunks failure).countP isErrorFrame =
      (match failure with | none => 0 | some _ => 1) ∧
    (∀ msg, failure = some msg →
      create_stream_response serialize chunks failure =
        chunks.map (fun c => dataFrame (serialize c)) ++
          [dataFrame (errorJson msg), doneFrame]) := by
  have hmap0 : (chunks.map (fun c => dataFrame (serialize c))).count doneFrame = 0 := by
    rw [List.count_eq_zero]
    intro hmem
    obtain ⟨c, hc, hce⟩ := List.mem_map.mp hmem
    exact h1 c hc hce
  have hmapP : (chunks.map (fun c => dataFrame (serialize c))).countP isErrorFrame = 0 := by
    rw [List.countP_eq_zero]
    intro f hf
    obtain ⟨c, hc, hce⟩ := List.mem_map.mp hf
    rw [← hce]
    simp [h2 c hc]
  cases failure with
  | none =>
    refine ⟨List.getLast?_concat _, ?_, ?_, ?_⟩
    · rw [create_stream_response, List.count_append, hmap0]
      rfl
    · rw [create_stream_response, List.countP_append, hmapP]
      simp [List.countP_cons, isErrorFrame, doneFrame]
    · intro msg hmsg
      exact Option.noConfusion hmsg
  | some msg0 =>
    refine ⟨?_, ?_, ?_, ?_⟩
    · show ((chunks.map fun c => dataFrame (serialize c)) ++
        ([dataFrame (errorJson msg0)] ++ [doneFrame])).getLast? = some doneFrame
      rw [← List.append_assoc]
      exact List.getLast?_concat _
    · rw [create_stream_response, List.count_append, hmap0]
      have hne : ¬ (dataFrame (errorJson msg0) = doneFrame) := errorFrame_ne_doneFrame msg0
      simp [List.count_cons, hne]
    · rw [create_stream_response, List.countP_append, hmapP]
      simp [List.countP_cons, isErrorFrame_errorFrame,
        show isErrorFrame doneFrame = false from by decide]
    · intro msg hmsg
      injection hmsg with hm
      subst hm
      rfl

/-- Witness for C5: a concrete two-chunk stream whose generator raises
`"boom"` contains the `[DONE]` sentinel exactly once. -/
theorem stream_framer_contract_witness :
    (create_stream_response (fun (n : Nat) => "\x7b\"v\": " ++ toString n ++ "\x7d")
      [1, 2] (some "boom")).count doneFrame = 1 :=
  (stream_framer_contract Nat (fun n => "\x7b\"v\": " ++ toString n ++ "\x7d")
    [1, 2] (some "boom") (by decide) (by decide)).2.1

/-- Claim C7: the handlers translate every failure crossing their `try`
block — from registry resolution or from the backend — into an error
envelope rather than propagating it: a `ValueError` becomes a
`invalid_request_error` envelope with HTTP status 400, and any other
exception becomes a `server_error` envelope with HTTP status 500, for both
the completion and the chat-completion handler; in particular a failed
registry resolution inside `create_completion` yields the 400 envelope. -/
theorem handler_failure_translation :
    (∀ (α : Type) (r : α),
      run_create_completion α (Except.ok r) = HandlerOutcome.success r) ∧
    (∀ (α : Type) (m : String),
      run_create_completion α (Except.error (PyFailure.valueError m)) =
        HandlerOutcome.errorResponse
          (create_error_response m "invalid_request_error" 400 none none)) ∧
    (∀ (α : Type) (m : String),
      run_create_completion α (Except.error (PyFailure.otherError m)) =
        HandlerOutcome.errorResponse
          (create_error_response ("Completion request failed: " ++ m)
            "server_error" 500 none none)) ∧
    (∀ (α : Type) (r : α),
      run_create_chat_completion α (Except.ok r) = HandlerOutcome.success r) ∧
    (∀ (α : Type) (m : String),
      run_create_chat_completion α (Except.error (PyFailure.valueError m)) =
        HandlerOutcome.errorResponse
          (create_error_response m "invalid_request_error" 400 none none)) ∧
    (∀ (α : Type) (m : String),
      run_create_chat_completion α (Except.error (PyFailure.otherError m)) =
        HandlerOutcome.errorResponse
          (create_error_response ("Chat completion request failed: " ++ m)
            "server_error" 500 none none)) ∧
    (∀ s model prompt t m, get_instance s (some model) = Except.error m →
      (create_completion s model prompt t).1 =
        HandlerOutcome.errorResponse
          (create_error_response m "invalid_request_error" 400 none none)) := by
  refine ⟨fun α r => rfl, fun α m => rfl, fun α m => rfl, fun α r => rfl,
    fun α m => rfl, fun α m => rfl, ?_⟩
  intro s model prompt t m h
  simp [create_completion, h]

/-- Witness for C7: requesting the unregistered model `"nope"` in the empty
factory produces the 400 `invalid_request_error` envelope, not a raw
failure. -/
theorem handler_failure_translation_witness :
    (create_completion emptyFactory "nope" (PyPrompt.str "hi") 0).1 =
      HandlerOutcome.errorResponse
        (create_error_response "Model \x27nope\x27 not found"
          "invalid_request_error" 400 none none) :=
  handler_failure_translation.2.2.2.2.2.2 emptyFactory "nope"
    (PyPrompt.str "hi") 0 _ rfl

/-- Claim C8: a prompt given as an all-string list is normalized to its
first element (empty string for the empty list); a prompt given as an
integer token sequence (or a list of integer sequences) makes the handler
return the `invalid_request_error` envelope naming param `"prompt"`, and an
error from normalization short-circuits `create_completion` before the
backend is invoked. -/
theorem prompt_list_handling :
    (∀ s items, (PyItem.str s :: items).all PyItem.isStr = true →
        normalize_prompt (.list (.str s :: items)) = Except.ok s) ∧
    (normalize_prompt (.list []) = Except.ok "") ∧
    (∀ items, items ≠ [] →
        (items.all PyItem.isInt = true ∨ items.all PyItem.isList = true) →
        normalize_prompt (.list items) =
          Except.error (create_error_response
            "Token lists as prompts are not supported" "invalid_request_error"
            400 (some "prompt") none)) ∧
    (∀ s model prompt t e inst s1,
        get_instance s (some model) = Except.ok (inst, s1) →
        normalize_prompt prompt = Except.error e →
        create_completion s model prompt t = (HandlerOutcome.errorResponse e, s1)) := by
  refine ⟨?_, rfl, ?_, ?_⟩
  · intro s items h
    simp [normalize_prompt, h, pyFirstString]
  · intro items hne hall
    match items, hne with
    | x :: rest, _ =>
      have hx : PyItem.isStr x = false := by
        rcases hall with h | h <;>
          · rw [List.all_cons, Bool.and_eq_true] at h
            cases x <;> simp_all [PyItem.isInt, PyItem.isList, PyItem.isStr]
      simp [normalize_prompt, List.all_cons, hx]
  · intro s model prompt t e inst s1 hga hnp
    simp [create_completion, hga, hnp]

/-- Witness for C8: the token-id prompt `[1, 2]` is rejected with the
`invalid_request_error` envelope naming param `"prompt"`. -/
theorem prompt_list_handling_witness :
    normalize_prompt (.list [PyItem.int 1, PyItem.int 2]) =
      Except.error (create_error_response
        "Token lists as prompts are not supported" "invalid_request_error"
        400 (some "prompt") none) :=
  prompt_list_handling.2.2.1 [PyItem.int 1, PyItem.int 2] (by decide)
    (Or.inl (by decide))

/-- Claim C9: the non-streaming `chat_complete` generates content from the
last message only — two message lists with the same final message (and the
same timestamp) yield identical `choices`, identical id, object, created
and model; only the usage counts can differ. -/
theorem chat_content_depends_only_on_last (t : Nat) (ms1 ms2 : List ChatMessage)
    (m : ChatMessage) (h1 : ms1.getLast? = some m) (h2 : ms2.getLast? = some m) :
    (chat_complete t ms1).choices = (chat_complete t ms2).choices ∧
    (chat_complete t ms1).id = (chat_complete t ms2).id ∧
    (chat_complete t ms1).object = (chat_complete t ms2).object ∧
    (chat_complete t ms1).created = (chat_complete t ms2).created ∧
    (chat_complete t ms1).model = (chat_complete t ms2).model := by
  have hc : mockChatContent ms1 = mockChatContent ms2 := by
    simp [mockChatContent, chatLastMessage, h1, h2]
  refine ⟨?_, rfl, rfl, rfl, rfl⟩
  simp [chat_complete, create_chat_completion_response, hc]

/-- Witness for C9: prepending a system message does not change the
generated chat choices when the final user message is the same. -/
theorem chat_content_depends_only_on_last_witness :
    (chat_complete 0 [{ role := "user", content := "Hi" }]).choices =
      (chat_complete 0 [{ role := "system", content := "sys" },
        { role := "user", content := "Hi" }]).choices :=
  (chat_content_depends_only_on_last 0
    [{ role := "user", content := "Hi" }]
    [{ role := "system", content := "sys" }, { role := "user", content := "Hi" }]
    { role := "user", content := "Hi" } rfl rfl).1

/-- Claim C10: a completion request whose prompt is the empty list is
accepted: the schema validator rewrites `[]` to `""`, the handler guard
maps an empty string list to `""` without indexing, and no validated
prompt value is ever the empty list — so the handler's `prompt[0]` can
never be evaluated on an empty list. -/
theorem empty_prompt_list_safe :
    (validate_prompt (.list []) = Except.ok (.str "")) ∧
    (normalize_prompt (.list []) = Except.ok "") ∧
    (∀ p r, validate_prompt p = Except.ok r → promptIsEmptyList r = false) := by
  refine ⟨rfl, rfl, ?_⟩
  intro p r h
  cases p with
  | str s =>
    injection h with h2
    subst h2
    rfl
  | list items =>
    cases items with
    | nil =>
      injection h with h2
      subst h2
      rfl
    | cons x rest =>
      simp only [validate_prompt, List.isEmpty_cons, Bool.false_eq_true,
        if_false] at h
      split at h
      · injection h with h2
        subst h2
        rfl
      · split at h
        · injection h with h2
          subst h2
          rfl
        · split at h
          · injection h with h2
            subst h2
            rfl
          · exact Except.noConfusion h

/-- Witness for C10: the validator maps the empty-list prompt to the empty
string, which is not an empty list. -/
theorem empty_prompt_list_safe_witness :
    promptIsEmptyList (PyPrompt.str "") = false :=
  empty_prompt_list_safe.2.2 (PyPrompt.list []) (PyPrompt.str "") rfl

end OAIServer
